import Mathlib

/-!
Verification of the gardener-discovery-server metadata ingestion and serving
engine against its specification.  The Go source is shallowly embedded:

* byte buffers (`[]byte`) become `List Nat`;
* Kubernetes objects (secrets, configmaps, projects, shoots, namespaces)
  become structures carrying exactly the fields the server reads;
* the control-plane client is an environment of fetch results
  (`found`/`notFound`/`transportErr`, mirroring `client.Get` and
  `apierrors.IsNotFound`);
* external library calls (`json.Unmarshal`, `pem.Decode`,
  `x509.ParseCertificate`, `uuid.Parse`, JWKS parsing) are parameters of the
  environment, so theorems quantify over their outcomes;
* the in-memory stores become association lists with Go-map semantics;
  buffer aliasing (deep-copy-on-boundary) is modelled with an explicit heap
  of buffers addressed by index.
-/

set_option autoImplicit false

namespace GDS

/-! ## Association-list maps with Go-map semantics -/

/-- Go map assignment `m[k] = v`: replaces an existing binding, else adds one. -/
def mapInsert {α : Type} (l : List (String × α)) (k : String) (v : α) :
    List (String × α) :=
  (k, v) :: l.filter (fun p => p.1 ≠ k)

/-- Go map `delete(m, k)`: removes the binding if present; idempotent. -/
def mapErase {α : Type} (l : List (String × α)) (k : String) :
    List (String × α) :=
  l.filter (fun p => p.1 ≠ k)

/-- Go map read `v, ok := m[k]`. -/
def mapLookup {α : Type} (l : List (String × α)) (k : String) : Option α :=
  l.lookup k

/-- Go map read without the `ok` flag: missing keys give the zero value. -/
def mapLookupD {α : Type} (l : List (String × α)) (k : String) (dflt : α) : α :=
  (mapLookup l k).getD dflt

/-! ## The typed in-memory store (`internal/store/store.go`), value level.

`Store.Write`, `Store.Read`, `Store.Delete` and `Store.Len` over the
underlying map; the deep-copy boundary is modelled separately with an
explicit heap (see `OidHeap` below). -/

def storeWrite {α : Type} (s : List (String × α)) (k : String) (v : α) :
    List (String × α) :=
  mapInsert s k v

def storeDelete {α : Type} (s : List (String × α)) (k : String) :
    List (String × α) :=
  mapErase s k

def storeRead {α : Type} (s : List (String × α)) (k : String) : Option α :=
  mapLookup s k

def storeLen {α : Type} (s : List (String × α)) : Nat :=
  s.length

/-! ## `internal/utils`: splitting `projectName--shootUID` -/

/-- Model of `unicode.IsSpace` restricted to the character set Go lists explicitly for
Latin-1 (`\t \n \v \f \r space U+0085 U+00A0`); code points of category Z
above Latin-1 are not produced by any input considered here. -/
def goIsSpace (c : Char) : Bool :=
  c = ' ' || c = '\t' || c = '\n' || c = '\x0b' || c = '\x0c' || c = '\r' ||
    c = '\x85' || c = '\xa0'

/-- Model of `strings.TrimSpace`: drop leading and trailing white space. -/
def trimSpace (s : String) : String :=
  String.mk (((s.toList.dropWhile goIsSpace).reverse.dropWhile goIsSpace).reverse)

/-- Model of `strings.Split` specialised to the separator `"--"` (the only separator
the server uses), splitting around leftmost non-overlapping occurrences. -/
def splitDashDashChars : List Char → List (List Char)
  | [] => [[]]
  | '-' :: '-' :: rest => [] :: splitDashDashChars rest
  | c :: rest =>
    match splitDashDashChars rest with
    | [] => [[c]]
    | r :: rs => (c :: r) :: rs

/-- Model of `strings.Split(s, "--")`. -/
def goSplitDashDash (s : String) : List String :=
  (splitDashDashChars s.toList).map String.mk

/-- Number of non-overlapping occurrences of `"--"` in `s`, defined through
the Go identity `len(strings.Split(s, sep)) = strings.Count(s, sep) + 1`
for non-empty `sep`. -/
def dashDashCount (s : String) : Nat :=
  (goSplitDashDash s).length - 1

/-- Model of `utils.SplitProjectNameAndShootUID`.  The Go function returns
`(projectName, shootUID, err)`; the `Bool` component is `true` exactly when
`ErrProjShootUIDInvalidFormat` is returned. -/
def SplitProjectNameAndShootUID (key : String) : String × String × Bool :=
  let split := goSplitDashDash key
  if split.length ≠ 2 ∨ trimSpace (split.getD 0 "") = "" ∨
      trimSpace (split.getD 1 "") = "" then
    ("", "", true)
  else
    (split.getD 0 "", split.getD 1 "", false)

example : SplitProjectNameAndShootUID "abc--7a25" = ("abc", "7a25", false) := by
  decide

example : SplitProjectNameAndShootUID "a--b--c" = ("", "", true) := by decide

example : SplitProjectNameAndShootUID "  --b" = ("", "", true) := by decide

example : SplitProjectNameAndShootUID "a---b" = ("a", "-b", false) := by decide

/-! ## Control-plane data model (the fields the server reads) -/

/-- Result of a `client.Get` call: the object, `apierrors.IsNotFound`, or any
other (transport) error. -/
inductive GetResult (α : Type) where
  | found (obj : α)
  | notFound
  | transportErr
deriving DecidableEq

/-- Model of `corev1.Secret`: deletion timestamp, `Data` (string → bytes) and labels. -/
structure Secret where
  deletionTimestamp : Option Nat
  data : List (String × List Nat)
  labels : List (String × String)

/-- Model of `gardencorev1beta1.Project`: the server only reads `Spec.Namespace`. -/
structure Project where
  specNamespace : Option String

/-- Model of `gardencorev1beta1.Shoot`: the server reads `UID` and the annotations. -/
structure Shoot where
  uid : String
  annotations : List (String × String)

/-- Model of `corev1.ConfigMap`: deletion timestamp, `Data` (string → string, kept as
bytes) and labels. -/
structure ConfigMap where
  deletionTimestamp : Option Nat
  data : List (String × List Nat)
  labels : List (String × String)

/-- Model of `corev1.Namespace`: the server only reads the labels. -/
structure NamespaceObj where
  labels : List (String × String)

/-- The `config` struct of `internal/reconciler/openidmeta/metadata.go`
(`issuer`, `jwks_uri`). -/
structure OpenIDConfig where
  issuer : String
  jwksUri : String

/-- A `jose.JSONWebKey` as far as the reconciler inspects it:
`IsPublic()` and `Valid()`. -/
structure JWK where
  isPublic : Bool
  valid : Bool

/-- Model of `store/openidmeta.Data`: the two verbatim byte buffers. -/
structure OMData where
  config : List Nat
  jwks : List Nat
deriving DecidableEq

/-- Model of `ctrl.Result` plus the error: `requeueAfter` is `0` for
`reconcile.Result{}`, and `isError` is `true` when a non-nil error is
returned. -/
structure ReconcileResult where
  requeueAfter : Nat
  isError : Bool
deriving DecidableEq

/-! Label and annotation keys (`v1beta1constants`). -/

def labelPublicKeys : String := "authentication.gardener.cloud/public-keys"
def labelPublicKeysServiceAccount : String := "serviceaccount"
def labelProjectName : String := "project.gardener.cloud/name"
def labelShootName : String := "shoot.gardener.cloud/name"
def labelShootNamespace : String := "shoot.gardener.cloud/namespace"
def labelShootUID : String := "shoot.gardener.cloud/uid"
def annotationKeyIssuer : String := "authentication.gardener.cloud/issuer"
def annotationValueManaged : String := "managed"

/-- Model of `strings.HasPrefix`: `len(s) >= len(pre)` and the first `len(pre)`
bytes agree. -/
def strStartsWith (s pre : String) : Bool :=
  pre.toList.isPrefixOf s.toList

/-! ## Shoot-OIDC reconciler (`internal/reconciler/openidmeta/metadata.go`) -/

/-- The environment a single OIDC reconcile runs in: the control-plane
fetches the reconciler performs and the external parsers it calls
(`json.Unmarshal` into `config`, JWKS parsing via `go-jose`). -/
structure OidcEnv where
  resyncPeriod : Nat
  getSecret : GetResult Secret
  getProject : String → GetResult Project
  getShoot : String → String → GetResult Shoot
  unmarshalConfig : List Nat → Option OpenIDConfig
  unmarshalJWKS : List Nat → Option (List JWK)

/-- The OIDC store contents (`store/openidmeta`), value level. -/
abbrev OidStore := List (String × OMData)

/-- Model of `Reconciler.Reconcile` of the shoot-OIDC reconciler, translated check by
check from the source.  `reqName` is `req.Name` (= `req.NamespacedName.Name`);
the secret fetch result is part of the environment. -/
def Reconcile (env : OidcEnv) (reqName : String) (st : OidStore) :
    OidStore × ReconcileResult :=
  match env.getSecret with
  | .transportErr => (st, ⟨0, true⟩)
  | .notFound => (storeDelete st reqName, ⟨0, false⟩)
  | .found secret =>
    if secret.deletionTimestamp.isSome then
      (storeDelete st reqName, ⟨0, false⟩)
    else
      match mapLookup secret.data "openid-config" with
      | none => (storeDelete st reqName, ⟨0, false⟩)
      | some cfgBytes =>
        if cfgBytes.length = 0 then (storeDelete st reqName, ⟨0, false⟩)
        else
          match mapLookup secret.data "jwks" with
          | none => (storeDelete st reqName, ⟨0, false⟩)
          | some jwksBytes =>
            if jwksBytes.length = 0 then (storeDelete st reqName, ⟨0, false⟩)
            else if mapLookup secret.labels labelPublicKeys ≠
                some labelPublicKeysServiceAccount then
              (storeDelete st reqName, ⟨0, false⟩)
            else
              match mapLookup secret.labels labelProjectName with
              | none => (storeDelete st reqName, ⟨0, false⟩)
              | some projectName =>
                match mapLookup secret.labels labelShootName with
                | none => (storeDelete st reqName, ⟨0, false⟩)
                | some shootName =>
                  match mapLookup secret.labels labelShootNamespace with
                  | none => (storeDelete st reqName, ⟨0, false⟩)
                  | some shootNamespace =>
                    match SplitProjectNameAndShootUID reqName with
                    | (_, _, true) => (storeDelete st reqName, ⟨0, false⟩)
                    | (projName, shootUID, false) =>
                      if projectName ≠ projName then
                        (storeDelete st reqName, ⟨0, false⟩)
                      else
                        match env.getProject projectName with
                        | .transportErr => (st, ⟨0, true⟩)
                        | .notFound => (storeDelete st reqName, ⟨0, false⟩)
                        | .found project =>
                          match project.specNamespace with
                          | none => (storeDelete st reqName, ⟨0, false⟩)
                          | some projNs =>
                            if shootNamespace ≠ projNs then
                              (storeDelete st reqName, ⟨0, false⟩)
                            else
                              match env.getShoot shootName shootNamespace with
                              | .transportErr => (st, ⟨0, true⟩)
                              | .notFound =>
                                (storeDelete st reqName, ⟨0, false⟩)
                              | .found shoot =>
                                if shootUID ≠ shoot.uid then
                                  (storeDelete st reqName, ⟨0, false⟩)
                                else if mapLookup shoot.annotations
                                    annotationKeyIssuer ≠
                                    some annotationValueManaged then
                                  (storeDelete st reqName, ⟨0, false⟩)
                                else
                                  match env.unmarshalConfig cfgBytes with
                                  | none =>
                                    (storeDelete st reqName, ⟨0, false⟩)
                                  | some cfg =>
                                    if ¬(strStartsWith cfg.issuer
                                          "https://" = true ∧
                                        strStartsWith cfg.jwksUri
                                          "https://" = true) then
                                      (storeDelete st reqName, ⟨0, false⟩)
                                    else
                                      match env.unmarshalJWKS jwksBytes with
                                      | none =>
                                        (storeDelete st reqName, ⟨0, false⟩)
                                      | some keys =>
                                        if keys.any (fun k =>
                                            ¬k.isPublic ∨ ¬k.valid) then
                                          (storeDelete st reqName, ⟨0, false⟩)
                                        else
                                          (storeWrite st reqName
                                            ⟨cfgBytes, jwksBytes⟩,
                                            ⟨env.resyncPeriod, false⟩)

/-! ## HTTP layer (`internal/handler/handler.go`)

A response writer is modelled by the status (`none` until `WriteHeader` is
called; a body write on an unset status commits `200`, as in `net/http`),
the header map and the accumulated body. -/

structure HttpResponse where
  status : Option Nat
  headers : List (String × String)
  body : String
deriving DecidableEq

def emptyResponse : HttpResponse := ⟨none, [], ""⟩

/-- Model of `w.Header().Set(k, v)`. -/
def setHeader (w : HttpResponse) (k v : String) : HttpResponse :=
  { w with headers := mapInsert w.headers k v }

/-- Model of `w.Header().Get(k)`: empty string when unset. -/
def getHeader (w : HttpResponse) (k : String) : String :=
  mapLookupD w.headers k ""

/-- Model of `w.WriteHeader(code)`: a second call is ignored (superfluous call). -/
def writeHeader (w : HttpResponse) (code : Nat) : HttpResponse :=
  if w.status.isSome then w else { w with status := some code }

/-- Model of `w.Write(bytes)`: commits status `200` if none was written yet. -/
def writeBody (w : HttpResponse) (s : String) : HttpResponse :=
  let w := if w.status.isNone then { w with status := some 200 } else w
  { w with body := w.body ++ s }

/-- A request as the handlers see it: the method and the two path
parameters (`r.PathValue` returns `""` for an absent parameter). -/
structure HttpRequest where
  method : String
  projectName : String
  shootUID : String

def headerHSTS : String := "Strict-Transport-Security"
def headerCacheControl : String := "Cache-Control"
def pubCacheControl : String := "public, max-age=3600"
def headerContentType : String := "Content-Type"
def mimeAppJSON : String := "application/json"

def responseInvalidUID : String :=
  "\x7b\"code\":400,\"message\":\"invalid UID\"\x7d"
def responseNotFound : String :=
  "\x7b\"code\":404,\"message\":\"not found\"\x7d"
def responseMethodNotAllowed : String :=
  "\x7b\"code\":405,\"message\":\"method not allowed\"\x7d"

/-- Middleware `handler.SetHSTS`. -/
def SetHSTS (next : HttpRequest → HttpResponse → HttpResponse)
    (r : HttpRequest) (w : HttpResponse) : HttpResponse :=
  let w := if getHeader w headerHSTS = "" then
    setHeader w headerHSTS "max-age=31536000; includeSubDomains" else w
  next r w

/-- Middleware `handler.AllowMethods`. -/
def AllowMethods (next : HttpRequest → HttpResponse → HttpResponse)
    (allowedMethods : List String) (r : HttpRequest) (w : HttpResponse) :
    HttpResponse :=
  if ¬allowedMethods.contains r.method then
    writeBody (writeHeader (setHeader w headerContentType mimeAppJSON) 405)
      responseMethodNotAllowed
  else next r w

/-- Terminal handler `handler.NotFound`. -/
def NotFound (w : HttpResponse) : HttpResponse :=
  writeBody (writeHeader (setHeader w headerContentType mimeAppJSON) 404)
    responseNotFound

/-- Model of `handler.StoreRequest`: the path-parametrized store lookup shared by the
OIDC and CA routes.  `uuidParse` stands for `uuid.Parse` (`true` = no
error); `getContent` extracts the served byte slice from the stored value. -/
def StoreRequest {α : Type} (uuidParse : String → Bool)
    (s : List (String × α)) (getContent : α → String)
    (r : HttpRequest) (w : HttpResponse) : HttpResponse :=
  if ¬uuidParse r.shootUID then
    writeBody (writeHeader (setHeader w headerContentType mimeAppJSON) 400)
      responseInvalidUID
  else
    match storeRead s (r.projectName ++ "--" ++ r.shootUID) with
    | none => NotFound w
    | some data =>
      writeBody
        (setHeader (setHeader w headerCacheControl pubCacheControl)
          headerContentType mimeAppJSON)
        (getContent data)

/-- A full shoot content route as registered in `run`:
`SetHSTS(AllowMethods(StoreRequest(...), GET, HEAD))`. -/
def shootContentRoute {α : Type} (uuidParse : String → Bool)
    (s : List (String × α)) (getContent : α → String)
    (r : HttpRequest) (w : HttpResponse) : HttpResponse :=
  SetHSTS (AllowMethods (StoreRequest uuidParse s getContent) ["GET", "HEAD"])
    r w

/-! ## Workload-identity handler
(`internal/handler/workloadidentity/handler.go`).

The routes are registered on the mux as
`metrics.InstrumentHandler(path, http.HandlerFunc(gardenHandler.HandleWellKnown))`
without any further middleware, so `handleRequest` computes the whole
response. -/

/-- Model of `handleRequest` of the workload-identity handler, serving the preloaded
`responseData`. -/
def wiHandleRequest (responseData : String) (r : HttpRequest)
    (w : HttpResponse) : HttpResponse :=
  let w := if getHeader w headerHSTS = "" then
    setHeader w headerHSTS "max-age=31536000" else w
  if r.method = "GET" ∨ r.method = "HEAD" then
    writeBody
      (setHeader (setHeader w headerCacheControl pubCacheControl)
        headerContentType mimeAppJSON)
      responseData
  else
    writeBody (writeHeader (setHeader w headerContentType mimeAppJSON) 405)
      responseMethodNotAllowed

/-! ## Dynamic certificate provider (`internal/dynamiccert/certificate.go`) -/

/-- A `tls.Certificate` as far as the provider inspects it: the raw DER
chains (`Certificate [][]byte`). -/
structure TLSCertificate where
  chains : List (List Nat)
deriving DecidableEq

/-- Model of `areEqual`: length check plus element-wise `slices.Equal`. -/
def areEqual (cert1 cert2 : List (List Nat)) : Bool :=
  if cert1.length ≠ cert2.length then false
  else (List.zip cert1 cert2).all (fun p => p.1 = p.2)

/-- Model of `DynamicCertificate`: the mutable current-certificate pointer.  `none`
models a nil pointer; `New` never produces it. -/
structure DynamicCertificate where
  certificate : Option TLSCertificate
deriving DecidableEq

/-- Model of `New`, with the result of the initial `tls.LoadX509KeyPair` supplied as
`loaded` (`none` = load error, which fails construction). -/
def dynamiccertNew (loaded : Option TLSCertificate) :
    Option DynamicCertificate :=
  match loaded with
  | none => none
  | some cert => some ⟨some cert⟩

/-- Model of `reloadCert`, with the result of `tls.LoadX509KeyPair` supplied as
`loaded`.  Returns the new state and whether an error was returned.  The
`none` current-certificate case would be a nil dereference in Go; it is
unreachable from `New`. -/
def reloadCert (dc : DynamicCertificate) (loaded : Option TLSCertificate) :
    DynamicCertificate × Bool :=
  match loaded with
  | none => (dc, true)
  | some cert =>
    match dc.certificate with
    | some current =>
      if areEqual cert.chains current.chains then (dc, false)
      else (⟨some cert⟩, false)
    | none => (⟨some cert⟩, false)

/-- Model of `GetCertificate`: returns the current pointer and a nil error. -/
def GetCertificate (dc : DynamicCertificate) :
    Option TLSCertificate × Bool :=
  (dc.certificate, false)

/-- The periodic refresh task: one `reloadCert` per tick, each tick's
`tls.LoadX509KeyPair` outcome given by the event list. -/
def runReloads (dc : DynamicCertificate)
    (events : List (Option TLSCertificate)) : DynamicCertificate :=
  events.foldl (fun s e => (reloadCert s e).1) dc

/-! ## Shoot-CA reconciler (`internal/reconciler/certificate`) -/

/-- A `pem.Block`: type line, headers, DER bytes. -/
structure PemBlock where
  blockType : String
  headers : List (String × String)
  derBytes : List Nat

/-- An `x509.Certificate` as far as the reconciler inspects it. -/
structure X509Cert where
  isCA : Bool

/-- The environment of a CA reconcile: control-plane fetches and the
external library calls.  `pemDecode` models `pem.Decode`; when a block is
found the remainder is strictly shorter than the input (the block's BEGIN
and END lines are consumed), which `pem.Decode` guarantees and the subtype
records.  `marshalCerts` models `json.Marshal` of the `{certs: ...}`
wrapper struct (`none` = marshal error). -/
structure CaEnv where
  resyncPeriod : Nat
  getConfigMap : GetResult ConfigMap
  getNamespace : String → GetResult NamespaceObj
  getProject : String → GetResult Project
  getShoot : String → String → GetResult Shoot
  pemDecode : (d : List Nat) →
    Option (PemBlock × { rest : List Nat // rest.length < d.length })
  parseCertificate : List Nat → Option X509Cert
  marshalCerts : List Nat → Option (List Nat)

/-- The `for { block, rest := pem.Decode(certs); ... }` loop of
`Reconcile`: `true` when the loop runs to completion (every decoded block
has type `CERTIFICATE`, no headers, parses, and is a CA), `false` when any
check fails. -/
def pemWalkOk (env : CaEnv) (certs : List Nat) : Bool :=
  match env.pemDecode certs with
  | none => true
  | some (block, rest) =>
    if block.blockType ≠ "CERTIFICATE" then false
    else if block.headers.length > 0 then false
    else
      match env.parseCertificate block.derBytes with
      | none => false
      | some cert =>
        if ¬cert.isCA then false
        else pemWalkOk env rest.val
termination_by certs.length
decreasing_by exact rest.property

/-- The sequence of blocks `pem.Decode` yields from `certs`; bytes after
the first undecodable position are never inspected. -/
def pemBlocks (env : CaEnv) (certs : List Nat) : List PemBlock :=
  match env.pemDecode certs with
  | none => []
  | some (block, rest) => block :: pemBlocks env rest.val
termination_by certs.length
decreasing_by exact rest.property

/-- The per-block validation predicate of the loop body. -/
def validBlock (env : CaEnv) (b : PemBlock) : Bool :=
  b.blockType = "CERTIFICATE" && b.headers.length = 0 &&
    (match env.parseCertificate b.derBytes with
     | none => false
     | some cert => cert.isCA)

/-- The CA reconciler's state: the CA store (key → marshalled bundle
payload) and the `storeMapping` table `ns/name → storeKey`. -/
structure CaState where
  store : List (String × List Nat)
  mapping : List (String × String)
deriving DecidableEq

/-- Model of `Reconciler.deleteMapping`: delete the store entry the mapping points
to (the zero value `""` when the mapping key is absent, as for a Go map
read), then drop the mapping entry. -/
def caDeleteMapping (st : CaState) (key : String) : CaState :=
  ⟨storeDelete st.store (mapLookupD st.mapping key ""),
    mapErase st.mapping key⟩

/-- Model of `Reconciler.createMapping`: record `mapKey → dataKey` and write the
payload under `dataKey`. -/
def caCreateMapping (st : CaState) (mapKey dataKey : String)
    (payload : List Nat) : CaState :=
  ⟨storeWrite st.store dataKey payload, mapInsert st.mapping mapKey dataKey⟩

/-- Model of `Reconciler.Reconcile` of the shoot-CA reconciler, translated check by
check from the source.  `reqNamespace`/`reqName` are the request's
namespaced name. -/
def CaReconcile (env : CaEnv) (reqNamespace reqName : String)
    (st : CaState) : CaState × ReconcileResult :=
  let mappingKey := reqNamespace ++ "/" ++ reqName
  match env.getConfigMap with
  | .transportErr => (st, ⟨0, true⟩)
  | .notFound => (caDeleteMapping st mappingKey, ⟨0, false⟩)
  | .found configmap =>
    if configmap.deletionTimestamp.isSome then
      (caDeleteMapping st mappingKey, ⟨0, false⟩)
    else
      match mapLookup configmap.data "ca.crt" with
      | none => (caDeleteMapping st mappingKey, ⟨0, false⟩)
      | some data =>
        if data.length = 0 then (caDeleteMapping st mappingKey, ⟨0, false⟩)
        else if mapLookupD configmap.labels "discovery.gardener.cloud/public"
              "" ≠ "shoot-ca" ∨
            mapLookupD configmap.labels "gardener.cloud/update-restriction"
              "" ≠ "true" then
          (caDeleteMapping st mappingKey, ⟨0, false⟩)
        else
          match env.getNamespace reqNamespace with
          | .transportErr => (st, ⟨0, true⟩)
          | .notFound => (caDeleteMapping st mappingKey, ⟨0, false⟩)
          | .found namespaceObj =>
            match mapLookup namespaceObj.labels labelProjectName with
            | none => (caDeleteMapping st mappingKey, ⟨0, false⟩)
            | some projectName =>
              match env.getProject projectName with
              | .transportErr => (st, ⟨0, true⟩)
              | .notFound => (caDeleteMapping st mappingKey, ⟨0, false⟩)
              | .found project =>
                match project.specNamespace with
                | none => (caDeleteMapping st mappingKey, ⟨0, false⟩)
                | some projNs =>
                  if projNs ≠ reqNamespace then
                    (caDeleteMapping st mappingKey, ⟨0, false⟩)
                  else
                    match mapLookup configmap.labels labelShootName with
                    | none => (caDeleteMapping st mappingKey, ⟨0, false⟩)
                    | some shootName =>
                      match mapLookup configmap.labels labelShootUID with
                      | none => (caDeleteMapping st mappingKey, ⟨0, false⟩)
                      | some shootUID =>
                        match env.getShoot shootName reqNamespace with
                        | .transportErr => (st, ⟨0, true⟩)
                        | .notFound =>
                          (caDeleteMapping st mappingKey, ⟨0, false⟩)
                        | .found shoot =>
                          if shootUID ≠ shoot.uid then
                            (caDeleteMapping st mappingKey, ⟨0, false⟩)
                          else if ¬pemWalkOk env data then
                            (caDeleteMapping st mappingKey, ⟨0, false⟩)
                          else
                            match env.marshalCerts data with
                            | none =>
                              (caDeleteMapping st mappingKey, ⟨0, true⟩)
                            | some payload =>
                              (caCreateMapping st mappingKey
                                (projectName ++ "--" ++ shootUID) payload,
                                ⟨env.resyncPeriod, false⟩)

/-! ## Deep-copy semantics of the store
(`internal/store/store.go` with `internal/store/openidmeta.copyData`).

To reason about aliasing, byte slices live in an explicit heap addressed by
index; a `Data` value holds two buffer addresses.  `copyData` allocates two
fresh buffers (`make` + `copy`); `Read` and `Write` call it at the
boundary.  Mutating a buffer in place models writing through a slice the
caller kept. -/

namespace OidHeap

/-- The slice heap: buffer address → bytes. -/
abbrev Heap := List (List Nat)

/-- Dereference a buffer address. -/
def getBuf (h : Heap) (i : Nat) : List Nat :=
  h.getD i []

/-- Mutate a buffer in place (a caller writing through its slice). -/
def setBuf (h : Heap) (i : Nat) (b : List Nat) : Heap :=
  h.set i b

/-- Model of `openidmeta.Data` at the reference level: addresses of `Config` and
`JWKS`. -/
structure DataRef where
  config : Nat
  jwks : Nat
deriving DecidableEq

/-- Model of `copyData`: allocate fresh buffers holding copies of the two fields. -/
def copyData (h : Heap) (d : DataRef) : Heap × DataRef :=
  (h ++ [getBuf h d.config, getBuf h d.jwks], ⟨h.length, h.length + 1⟩)

/-- The store's own map: key → buffer addresses it owns. -/
abbrev OMStore := List (String × DataRef)

/-- Model of `Store.Read`: look up, deep-copy on hit. -/
def Read (h : Heap) (s : OMStore) (key : String) : Heap × Option DataRef :=
  match mapLookup s key with
  | some d => let p := copyData h d; (p.1, some p.2)
  | none => (h, none)

/-- Model of `Store.Write`: deep-copy on entry, then assign. -/
def Write (h : Heap) (s : OMStore) (key : String) (d : DataRef) :
    Heap × OMStore :=
  let p := copyData h d
  (p.1, mapInsert s key p.2)

/-- The bytes a `Read` returns, dereferenced in the heap it returns. -/
def ReadBytes (h : Heap) (s : OMStore) (key : String) :
    Option (List Nat × List Nat) :=
  match Read h s key with
  | (h2, some r) => some (getBuf h2 r.config, getBuf h2 r.jwks)
  | (_, none) => none

/-- All addresses the store holds are allocated in the heap. -/
def WF (h : Heap) (s : OMStore) : Prop :=
  ∀ p ∈ s, p.2.config < h.length ∧ p.2.jwks < h.length

end OidHeap

/-- The validation-failure disjunction of the shoot-OIDC reconciler, as
claim C1 enumerates it over a fetched secret. -/
def oidcValidationFails (env : OidcEnv) (reqName : String)
    (secret : Secret) : Prop :=
  (mapLookup secret.data "openid-config" = none ∨
    mapLookup secret.data "openid-config" = some []) ∨
  (mapLookup secret.data "jwks" = none ∨
    mapLookup secret.data "jwks" = some []) ∨
  mapLookup secret.labels labelPublicKeys ≠
    some labelPublicKeysServiceAccount ∨
  mapLookup secret.labels labelProjectName = none ∨
  mapLookup secret.labels labelShootName = none ∨
  mapLookup secret.labels labelShootNamespace = none ∨
  (SplitProjectNameAndShootUID reqName).2.2 = true ∨
  (∃ p u q, SplitProjectNameAndShootUID reqName = (p, u, false) ∧
    mapLookup secret.labels labelProjectName = some q ∧ q ≠ p) ∨
  (∃ q, mapLookup secret.labels labelProjectName = some q ∧
    (env.getProject q = .notFound ∨
      ∃ pr, env.getProject q = .found pr ∧
        (pr.specNamespace = none ∨
          ∃ ns, pr.specNamespace = some ns ∧
            mapLookup secret.labels labelShootNamespace ≠ some ns))) ∨
  (∃ sn ns, mapLookup secret.labels labelShootName = some sn ∧
    mapLookup secret.labels labelShootNamespace = some ns ∧
    (env.getShoot sn ns = .notFound ∨
      (∃ sh p u, env.getShoot sn ns = .found sh ∧
        SplitProjectNameAndShootUID reqName = (p, u, false) ∧ u ≠ sh.uid) ∨
      (∃ sh, env.getShoot sn ns = .found sh ∧
        mapLookup sh.annotations annotationKeyIssuer ≠
          some annotationValueManaged))) ∨
  (∃ v cfg, mapLookup secret.data "openid-config" = some v ∧
    env.unmarshalConfig v = some cfg ∧
    (strStartsWith cfg.issuer "https://" = false ∨
      strStartsWith cfg.jwksUri "https://" = false)) ∨
  (∃ v, mapLookup secret.data "jwks" = some v ∧
    env.unmarshalJWKS v = none) ∨
  (∃ v ks, mapLookup secret.data "jwks" = some v ∧
    env.unmarshalJWKS v = some ks ∧
    ∃ k ∈ ks, k.isPublic = false ∨ k.valid = false)

/-- A CA-reconcile environment in which every tenant-binding check passes
and the shoot UID (and its configmap label) is `uid`; `data["ca.crt"]`
holds one byte, no PEM block decodes from it, and `marshalCerts` is the
identity on payloads.  Used to exercise the store-key change scenario. -/
def caEnvWithUID (uid : String) : CaEnv :=
  { resyncPeriod := 5
    getConfigMap := .found
      { deletionTimestamp := none
        data := [("ca.crt", [65])]
        labels := [("discovery.gardener.cloud/public", "shoot-ca"),
                   ("gardener.cloud/update-restriction", "true"),
                   (labelShootName, "my-shoot"),
                   (labelShootUID, uid)] }
    getNamespace := fun _ => .found ⟨[(labelProjectName, "abc")]⟩
    getProject := fun _ => .found ⟨some "garden-abc"⟩
    getShoot := fun _ _ => .found ⟨uid, []⟩
    pemDecode := fun _ => none
    parseCertificate := fun _ => none
    marshalCerts := fun d => some d }

/-- A CA-reconcile environment whose tenant checks pass but whose
`data["ca.crt"]` decodes to a single PEM block of type
`RSA PRIVATE KEY`. -/
def caEnvBadBlock : CaEnv :=
  { resyncPeriod := 5
    getConfigMap := .found
      { deletionTimestamp := none
        data := [("ca.crt", [65, 66])]
        labels := [("discovery.gardener.cloud/public", "shoot-ca"),
                   ("gardener.cloud/update-restriction", "true"),
                   (labelShootName, "my-shoot"),
                   (labelShootUID, "u1")] }
    getNamespace := fun _ => .found ⟨[(labelProjectName, "abc")]⟩
    getProject := fun _ => .found ⟨some "garden-abc"⟩
    getShoot := fun _ _ => .found ⟨"u1", []⟩
    pemDecode := fun d =>
      if h : d = [65, 66] then
        some (⟨"RSA PRIVATE KEY", [], [9]⟩, ⟨[], by simp [h]⟩)
      else none
    parseCertificate := fun _ => none
    marshalCerts := fun d => some d }

/-! # Theorems -/

/-! ## C10: name splitting rejects extra separators -/

/-- Claim C10: for every input containing `"--"` more than once, or whose
part before or after the single `"--"` is empty or only whitespace,
`SplitProjectNameAndShootUID` returns the invalid-format error with empty
result strings, and the shoot-OIDC reconciler consequently deletes the
store entry for that name and returns success. -/
theorem C10_split_rejects_extra_separator (key : String)
    (h : 2 ≤ dashDashCount key ∨
      (dashDashCount key = 1 ∧
        (trimSpace ((goSplitDashDash key).getD 0 "") = "" ∨
          trimSpace ((goSplitDashDash key).getD 1 "") = ""))) :
    SplitProjectNameAndShootUID key = ("", "", true) ∧
    ∀ (env : OidcEnv) (st : OidStore) (secret : Secret),
      env.getSecret = .found secret →
      secret.deletionTimestamp = none →
      Reconcile env key st = (storeDelete st key, ⟨0, false⟩) := by
  have hsplit : SplitProjectNameAndShootUID key = ("", "", true) := by
    have hcond : (goSplitDashDash key).length ≠ 2 ∨
        trimSpace ((goSplitDashDash key).getD 0 "") = "" ∨
        trimSpace ((goSplitDashDash key).getD 1 "") = "" := by
      rcases h with h | ⟨h1, h2⟩
      · left; unfold dashDashCount at h; omega
      · right; exact h2
    unfold SplitProjectNameAndShootUID
    rw [if_pos hcond]
  refine ⟨hsplit, ?_⟩
  intro env st secret hfound hdel
  unfold Reconcile
  rw [hfound]
  simp only [hdel, Option.isSome_none, Bool.false_eq_true, if_false]
  repeat' split
  all_goals simp_all

/-- Witness for C10 at the concrete input `"a--b--c"`. -/
theorem C10_split_rejects_extra_separator_witness :
    SplitProjectNameAndShootUID "a--b--c" = ("", "", true) ∧
    ∀ (env : OidcEnv) (st : OidStore) (secret : Secret),
      env.getSecret = .found secret →
      secret.deletionTimestamp = none →
      Reconcile env "a--b--c" st = (storeDelete st "a--b--c", ⟨0, false⟩) :=
  C10_split_rejects_extra_separator "a--b--c" (Or.inl (by decide))

/-! ## C8: dynamic certificate provider -/

/-- Claim C8: the accessor never returns nil — starting from a successful
initial load, after any sequence of periodic reloads `GetCertificate`
returns a present certificate and a nil error; a failed reload leaves the
state unchanged, and any run of consecutive failed reloads leaves the last
successfully loaded certificate in place. -/
theorem C8_dynamiccert_never_nil (load : Option TLSCertificate)
    (dc0 : DynamicCertificate) (hnew : dynamiccertNew load = some dc0)
    (events : List (Option TLSCertificate)) :
    ((GetCertificate (runReloads dc0 events)).1.isSome = true ∧
      (GetCertificate (runReloads dc0 events)).2 = false) ∧
    (∀ dc : DynamicCertificate, reloadCert dc none = (dc, true)) ∧
    (∀ (dc : DynamicCertificate) (n : Nat),
      runReloads dc (List.replicate n none) = dc) := by
  have hpres : ∀ (dc : DynamicCertificate) (e : Option TLSCertificate),
      dc.certificate.isSome = true →
      ((reloadCert dc e).1).certificate.isSome = true := by
    intro dc e hdc
    unfold reloadCert
    cases e with
    | none => exact hdc
    | some cert =>
      cases hcur : dc.certificate with
      | none => simp
      | some current =>
        by_cases heq : areEqual cert.chains current.chains = true
        · simp [heq, hdc]
        · simp [heq]
  have hrun : ∀ (events : List (Option TLSCertificate))
      (dc : DynamicCertificate), dc.certificate.isSome = true →
      (runReloads dc events).certificate.isSome = true := by
    intro events
    induction events with
    | nil => intro dc hdc; exact hdc
    | cons e es ih =>
      intro dc hdc
      have : runReloads dc (e :: es) = runReloads (reloadCert dc e).1 es := by
        simp [runReloads]
      rw [this]
      exact ih _ (hpres dc e hdc)
  have hdc0 : dc0.certificate.isSome = true := by
    cases load with
    | none => simp [dynamiccertNew] at hnew
    | some cert =>
      simp [dynamiccertNew] at hnew
      rw [← hnew]
      rfl
  refine ⟨⟨hrun events dc0 hdc0, rfl⟩, fun dc => rfl, ?_⟩
  intro dc n
  induction n with
  | zero => rfl
  | succ n ih =>
    have : runReloads dc (List.replicate (n + 1) none) =
        runReloads (reloadCert dc none).1 (List.replicate n none) := by
      simp [runReloads, List.replicate_succ]
    rw [this]
    exact ih

/-- Witness for C8: an initial certificate, one failed reload and one
successful reload to a different certificate. -/
theorem C8_dynamiccert_never_nil_witness :
    ((GetCertificate (runReloads ⟨some ⟨[[1]]⟩⟩
        [none, some ⟨[[2]]⟩])).1.isSome = true ∧
      (GetCertificate (runReloads ⟨some ⟨[[1]]⟩⟩
        [none, some ⟨[[2]]⟩])).2 = false) ∧
    (∀ dc : DynamicCertificate, reloadCert dc none = (dc, true)) ∧
    (∀ (dc : DynamicCertificate) (n : Nat),
      runReloads dc (List.replicate n none) = dc) :=
  C8_dynamiccert_never_nil (some ⟨[[1]]⟩) ⟨some ⟨[[1]]⟩⟩ (by rfl)
    [none, some ⟨[[2]]⟩]

/-! ## C3: the path-parametrized store-lookup handler -/

/-- Claim C3: `StoreRequest` answers 400 with the JSON invalid-UID envelope
when the `shootUID` path parameter does not parse as a UUID; 404 with the
not-found envelope when the store has no entry under
`projectName ++ "--" ++ shootUID`; and otherwise 200 with
`Cache-Control: public, max-age=3600`, `Content-Type: application/json`
and the extracted stored byte slice as body. -/
theorem C3_store_request_responses {α : Type} (uuidParse : String → Bool)
    (s : List (String × α)) (getContent : α → String) (r : HttpRequest) :
    (uuidParse r.shootUID = false →
      StoreRequest uuidParse s getContent r emptyResponse =
        ⟨some 400, [(headerContentType, mimeAppJSON)], responseInvalidUID⟩) ∧
    (uuidParse r.shootUID = true →
      storeRead s (r.projectName ++ "--" ++ r.shootUID) = none →
      StoreRequest uuidParse s getContent r emptyResponse =
        ⟨some 404, [(headerContentType, mimeAppJSON)], responseNotFound⟩) ∧
    (∀ d : α, uuidParse r.shootUID = true →
      storeRead s (r.projectName ++ "--" ++ r.shootUID) = some d →
      StoreRequest uuidParse s getContent r emptyResponse =
        ⟨some 200,
          [(headerContentType, mimeAppJSON),
            (headerCacheControl, pubCacheControl)],
          getContent d⟩) := by
  refine ⟨?_, ?_, ?_⟩
  · intro hp
    simp [StoreRequest, hp, emptyResponse, setHeader, writeHeader, writeBody,
      mapInsert]
  · intro hp hread
    simp [StoreRequest, hp, hread, NotFound, emptyResponse, setHeader,
      writeHeader, writeBody, mapInsert]
  · intro d hp hread
    simp [StoreRequest, hp, hread, emptyResponse, setHeader, writeHeader,
      writeBody, mapInsert, headerContentType, headerCacheControl]

/-- Witness for C3: a one-entry store, hit, miss and invalid-UID requests. -/
theorem C3_store_request_responses_witness :
    StoreRequest (fun u => u = "7a25") [("p--7a25", "DATA")] id
      ⟨"GET", "p", "7a25"⟩ emptyResponse =
      ⟨some 200,
        [(headerContentType, mimeAppJSON),
          (headerCacheControl, pubCacheControl)], "DATA"⟩ ∧
    StoreRequest (fun u => u = "7a25") [("p--7a25", "DATA")] id
      ⟨"GET", "q", "7a25"⟩ emptyResponse =
      ⟨some 404, [(headerContentType, mimeAppJSON)], responseNotFound⟩ ∧
    StoreRequest (fun u => u = "7a25") [("p--7a25", "DATA")] id
      ⟨"GET", "p", "bad"⟩ emptyResponse =
      ⟨some 400, [(headerContentType, mimeAppJSON)], responseInvalidUID⟩ :=
  ⟨(C3_store_request_responses (fun u => u = "7a25") [("p--7a25", "DATA")] id
      ⟨"GET", "p", "7a25"⟩).2.2 "DATA" (by decide) (by decide),
    (C3_store_request_responses (fun u => u = "7a25") [("p--7a25", "DATA")] id
      ⟨"GET", "q", "7a25"⟩).2.1 (by decide) (by decide),
    (C3_store_request_responses (fun u => u = "7a25") [("p--7a25", "DATA")] id
      ⟨"GET", "p", "bad"⟩).1 (by decide)⟩

/-! ## C7: workload-identity handler headers -/

/-- Claim C7 is refuted by the code: a successful GET served by the
workload-identity `handleRequest` (registered without the `SetHSTS`
middleware) carries `Strict-Transport-Security: max-age=31536000` —
without `; includeSubDomains` — while a shoot content route carries
`max-age=31536000; includeSubDomains`.  Cache-Control, Content-Type and
the verbatim preloaded body do match the claim. -/
theorem C7_wi_hsts_differs_from_shoot_routes :
    wiHandleRequest "DATA" ⟨"GET", "", ""⟩ emptyResponse =
      ⟨some 200,
        [(headerContentType, mimeAppJSON),
          (headerCacheControl, pubCacheControl),
          (headerHSTS, "max-age=31536000")], "DATA"⟩ ∧
    getHeader (wiHandleRequest "DATA" ⟨"GET", "", ""⟩ emptyResponse)
      headerHSTS ≠ "max-age=31536000; includeSubDomains" ∧
    getHeader (shootContentRoute (fun _ => true) [("p--u", "DATA")] id
      ⟨"GET", "p", "u"⟩ emptyResponse) headerHSTS =
      "max-age=31536000; includeSubDomains" := by
  refine ⟨?_, ?_, ?_⟩ <;> decide

/-! ## C1: any validation failure deletes and returns success -/

set_option maxHeartbeats 4000000 in
/-- Claim C1: for every reconcile of the shoot-OIDC reconciler whose
fetched secret fails any of the enumerated validation checks — and whose
project/shoot fetches do not fail with a transport error, which the
pipeline reports as a retried reconcile error instead — `Reconcile`
deletes the store entry under the request name and returns a nil error
with an empty result (no requeue). -/
theorem C1_validation_failure_deletes (env : OidcEnv) (reqName : String)
    (st : OidStore) (secret : Secret)
    (hfound : env.getSecret = .found secret)
    (hdel : secret.deletionTimestamp = none)
    (hproj : ∀ p, env.getProject p ≠ .transportErr)
    (hshoot : ∀ n ns, env.getShoot n ns ≠ .transportErr)
    (hfail : oidcValidationFails env reqName secret) :
    Reconcile env reqName st = (storeDelete st reqName, ⟨0, false⟩) := by
  unfold Reconcile
  rw [hfound]
  simp only [hdel, Option.isSome_none, Bool.false_eq_true, if_false]
  unfold oidcValidationFails at hfail
  repeat' split
  all_goals try rfl
  all_goals
    exfalso
    rcases hfail with (h | h) | (h | h) | h | h | h | h | h |
      ⟨p, u, q, h1, h2, h3⟩ | ⟨q, hq, h⟩ | ⟨sn, ns, hsn, hns, h⟩ |
      ⟨v, cfg2, hv, hcfg, h⟩ | ⟨v, hv, h⟩ | ⟨v, ks, hv, hks, k, hk, h⟩ <;>
    try simp_all
  all_goals
    obtain ⟨x, x1, ⟨e1, e2⟩, ne⟩ := h
    exact ne e2.symm

/-- Witness for C1: a secret whose `public-keys` label carries the wrong
value. -/
theorem C1_validation_failure_deletes_witness :
    Reconcile
      { resyncPeriod := 7
        getSecret := .found
          { deletionTimestamp := none
            data := [("openid-config", [1]), ("jwks", [2])]
            labels := [(labelPublicKeys, "wrong")] }
        getProject := fun _ => .notFound
        getShoot := fun _ _ => .notFound
        unmarshalConfig := fun _ => none
        unmarshalJWKS := fun _ => none }
      "abc--u" [] = (storeDelete [] "abc--u", ⟨0, false⟩) :=
  C1_validation_failure_deletes _ "abc--u" [] _ rfl rfl
    (fun _ h => GetResult.noConfusion h) (fun _ _ h => GetResult.noConfusion h)
    (Or.inr (Or.inr (Or.inl (by decide))))

/-! ## C2: a fully valid secret is stored verbatim -/

/-- Claim C2: when every validation check passes, `Reconcile` writes under
the key equal to the secret name the value whose `Config` field is
byte-for-byte the secret's `data["openid-config"]` and whose `JWKS` field
is byte-for-byte the secret's `data["jwks"]`, and returns a result
requeued after the resync period with a nil error. -/
theorem C2_valid_secret_written (env : OidcEnv) (reqName : String)
    (st : OidStore) (secret : Secret) (cfgBytes jwksBytes : List Nat)
    (projName shootName shootNamespace shootUID : String)
    (project : Project) (shoot : Shoot) (cfg : OpenIDConfig)
    (keys : List JWK)
    (hfound : env.getSecret = .found secret)
    (hdel : secret.deletionTimestamp = none)
    (hoc : mapLookup secret.data "openid-config" = some cfgBytes)
    (hocne : cfgBytes ≠ [])
    (hj : mapLookup secret.data "jwks" = some jwksBytes)
    (hjne : jwksBytes ≠ [])
    (hpk : mapLookup secret.labels labelPublicKeys =
      some labelPublicKeysServiceAccount)
    (hpl : mapLookup secret.labels labelProjectName = some projName)
    (hsl : mapLookup secret.labels labelShootName = some shootName)
    (hnl : mapLookup secret.labels labelShootNamespace =
      some shootNamespace)
    (hsplit : SplitProjectNameAndShootUID reqName =
      (projName, shootUID, false))
    (hgp : env.getProject projName = .found project)
    (hns : project.specNamespace = some shootNamespace)
    (hgs : env.getShoot shootName shootNamespace = .found shoot)
    (huid : shoot.uid = shootUID)
    (hann : mapLookup shoot.annotations annotationKeyIssuer =
      some annotationValueManaged)
    (hcfg : env.unmarshalConfig cfgBytes = some cfg)
    (hiss : strStartsWith cfg.issuer "https://" = true)
    (hjwks : strStartsWith cfg.jwksUri "https://" = true)
    (hks : env.unmarshalJWKS jwksBytes = some keys)
    (hkeys : ∀ k ∈ keys, k.isPublic = true ∧ k.valid = true) :
    Reconcile env reqName st =
      (storeWrite st reqName ⟨cfgBytes, jwksBytes⟩,
        ⟨env.resyncPeriod, false⟩) := by
  have hany : keys.any (fun k => decide (¬k.isPublic ∨ ¬k.valid)) = false := by
    simp only [List.any_eq_false]
    intro k hk
    obtain ⟨h1, h2⟩ := hkeys k hk
    simp [h1, h2]
  unfold Reconcile
  rw [hfound]
  simp [hdel, hoc, hocne, hj, hjne, hpk, hpl, hsl, hnl, hsplit, hgp, hns,
    hgs, huid, hann, hcfg, hiss, hjwks, hks, hany]
  intro x hx hbad
  obtain ⟨h1, h2⟩ := hkeys x hx
  rcases hbad with hb | hb
  · rw [h1] at hb; cases hb
  · rw [h2] at hb; cases hb

/-- Witness for C2: a concrete fully-valid secret and environment. -/
theorem C2_valid_secret_written_witness :
    Reconcile
      { resyncPeriod := 7
        getSecret := .found
          { deletionTimestamp := none
            data := [("openid-config", [1]), ("jwks", [2])]
            labels := [(labelPublicKeys, labelPublicKeysServiceAccount),
                       (labelProjectName, "abc"),
                       (labelShootName, "my-shoot"),
                       (labelShootNamespace, "garden-abc")] }
        getProject := fun _ => .found ⟨some "garden-abc"⟩
        getShoot := fun _ _ => .found ⟨"u1", [(annotationKeyIssuer,
          annotationValueManaged)]⟩
        unmarshalConfig := fun _ =>
          some ⟨"https://foo", "https://foo/jwks"⟩
        unmarshalJWKS := fun _ => some [⟨true, true⟩] }
      "abc--u1" [] = (storeWrite [] "abc--u1" ⟨[1], [2]⟩, ⟨7, false⟩) :=
  C2_valid_secret_written _ "abc--u1" [] _ [1] [2] "abc" "my-shoot"
    "garden-abc" "u1" ⟨some "garden-abc"⟩
    ⟨"u1", [(annotationKeyIssuer, annotationValueManaged)]⟩
    ⟨"https://foo", "https://foo/jwks"⟩ [⟨true, true⟩]
    rfl rfl (by decide) (by decide) (by decide) (by decide) (by decide)
    (by decide) (by decide) (by decide) (by decide) rfl rfl rfl rfl
    (by decide) rfl (by decide) (by decide) rfl
    (by intro k hk; simp at hk; simp [hk])

/-! ## The PEM walk of the shoot-CA reconciler -/

/-- The loop succeeds exactly when every decoded block passes the
per-block checks. -/
theorem pemWalkOk_eq_all_validBlock (env : CaEnv) (certs : List Nat) :
    pemWalkOk env certs = (pemBlocks env certs).all (validBlock env) := by
  have main : ∀ (n : Nat) (certs : List Nat), certs.length < n →
      pemWalkOk env certs = (pemBlocks env certs).all (validBlock env) := by
    intro n
    induction n with
    | zero => intro certs h; exact absurd h (Nat.not_lt_zero _)
    | succ n ih =>
      intro certs h
      unfold pemWalkOk pemBlocks
      cases hd : env.pemDecode certs with
      | none => simp
      | some pr =>
        obtain ⟨block, rest⟩ := pr
        have hrest := rest.property
        have ihr := ih rest.val (by omega)
        simp only [List.all_cons, ← ihr]
        by_cases ht : block.blockType = "CERTIFICATE"
        · by_cases hh : block.headers.length = 0
          · cases hc : env.parseCertificate block.derBytes with
            | none => simp [validBlock, ht, hh, hc]
            | some cert =>
              by_cases hca : cert.isCA = true
              · simp [validBlock, ht, hh, hc, hca]
              · simp [validBlock, ht, hh, hc, hca]
          · simp [validBlock, ht, hh, Nat.pos_iff_ne_zero]
        · simp [validBlock, ht]
  exact main (certs.length + 1) certs (Nat.lt_succ_self _)

/-- When no PEM block decodes from the input, the walk succeeds
immediately. -/
theorem pemWalkOk_of_decode_none (env : CaEnv) (certs : List Nat)
    (h : env.pemDecode certs = none) : pemWalkOk env certs = true := by
  unfold pemWalkOk
  simp [h]

/-- When no PEM block decodes from the input, no block is produced. -/
theorem pemBlocks_of_decode_none (env : CaEnv) (certs : List Nat)
    (h : env.pemDecode certs = none) : pemBlocks env certs = [] := by
  unfold pemBlocks
  simp [h]

/-- One decoding step of the block walk. -/
theorem pemBlocks_of_decode_some (env : CaEnv) (certs : List Nat)
    (block : PemBlock)
    (rest : { rest : List Nat // rest.length < certs.length })
    (h : env.pemDecode certs = some (block, rest)) :
    pemBlocks env certs = block :: pemBlocks env rest.val := by
  conv_lhs => unfold pemBlocks
  rw [h]

/-- When every check of a CA reconcile passes, the outcome is the
`createMapping` write.  Shared evaluation lemma. -/
theorem caReconcile_success_eq (env : CaEnv) (reqNamespace reqName : String)
    (st : CaState) (configmap : ConfigMap) (data : List Nat)
    (namespaceObj : NamespaceObj) (projectName : String)
    (project : Project) (shootName shootUID : String) (shoot : Shoot)
    (payload : List Nat)
    (hcm : env.getConfigMap = .found configmap)
    (hdel : configmap.deletionTimestamp = none)
    (hdata : mapLookup configmap.data "ca.crt" = some data)
    (hdne : data ≠ [])
    (hl1 : mapLookupD configmap.labels "discovery.gardener.cloud/public" ""
      = "shoot-ca")
    (hl2 : mapLookupD configmap.labels "gardener.cloud/update-restriction"
      "" = "true")
    (hns : env.getNamespace reqNamespace = .found namespaceObj)
    (hpl : mapLookup namespaceObj.labels labelProjectName =
      some projectName)
    (hgp : env.getProject projectName = .found project)
    (hpns : project.specNamespace = some reqNamespace)
    (hsn : mapLookup configmap.labels labelShootName = some shootName)
    (hsu : mapLookup configmap.labels labelShootUID = some shootUID)
    (hgs : env.getShoot shootName reqNamespace = .found shoot)
    (huid : shoot.uid = shootUID)
    (hwalk : pemWalkOk env data = true)
    (hm : env.marshalCerts data = some payload) :
    CaReconcile env reqNamespace reqName st =
      (caCreateMapping st (reqNamespace ++ "/" ++ reqName)
        (projectName ++ "--" ++ shootUID) payload,
        ⟨env.resyncPeriod, false⟩) := by
  unfold CaReconcile
  rw [hcm]
  simp [hdel, hdata, hdne, hl1, hl2, hns, hpl, hgp, hpns, hsn, hsu, hgs,
    huid, hm, hwalk]

/-! ## C4: PEM validation of the shoot-CA reconciler -/

/-- Claim C4: when the configmap passes the label and tenant-binding
checks, the reconcile outcome is decided by the PEM walk — if any decoded
block has a type other than `CERTIFICATE`, non-empty headers, fails to
parse as X.509 or lacks the CA basic-constraint, the mapped store entry is
removed and success is returned; otherwise the marshalled
`{"certs": <raw pem text>}` document is written under
`projectName--shootUID` and the mapping `ns/name → projectName--shootUID`
is recorded. -/
theorem C4_ca_pem_validation (env : CaEnv) (reqNamespace reqName : String)
    (st : CaState) (configmap : ConfigMap) (data : List Nat)
    (namespaceObj : NamespaceObj) (projectName : String)
    (project : Project) (shootName shootUID : String) (shoot : Shoot)
    (payload : List Nat)
    (hcm : env.getConfigMap = .found configmap)
    (hdel : configmap.deletionTimestamp = none)
    (hdata : mapLookup configmap.data "ca.crt" = some data)
    (hdne : data ≠ [])
    (hl1 : mapLookupD configmap.labels "discovery.gardener.cloud/public" ""
      = "shoot-ca")
    (hl2 : mapLookupD configmap.labels "gardener.cloud/update-restriction"
      "" = "true")
    (hns : env.getNamespace reqNamespace = .found namespaceObj)
    (hpl : mapLookup namespaceObj.labels labelProjectName =
      some projectName)
    (hgp : env.getProject projectName = .found project)
    (hpns : project.specNamespace = some reqNamespace)
    (hsn : mapLookup configmap.labels labelShootName = some shootName)
    (hsu : mapLookup configmap.labels labelShootUID = some shootUID)
    (hgs : env.getShoot shootName reqNamespace = .found shoot)
    (huid : shoot.uid = shootUID)
    (hm : env.marshalCerts data = some payload) :
    CaReconcile env reqNamespace reqName st =
      if (pemBlocks env data).all (validBlock env) then
        (caCreateMapping st (reqNamespace ++ "/" ++ reqName)
          (projectName ++ "--" ++ shootUID) payload,
          ⟨env.resyncPeriod, false⟩)
      else
        (caDeleteMapping st (reqNamespace ++ "/" ++ reqName), ⟨0, false⟩) := by
  have hwalk := pemWalkOk_eq_all_validBlock env data
  unfold CaReconcile
  rw [hcm]
  by_cases hall : (pemBlocks env data).all (validBlock env) = true
  · simp [hdel, hdata, hdne, hl1, hl2, hns, hpl, hgp, hpns, hsn, hsu, hgs,
      huid, hm, hwalk, hall]
  · simp [hdel, hdata, hdne, hl1, hl2, hns, hpl, hgp, hpns, hsn, hsu, hgs,
      huid, hm, hwalk, hall]

/-- Witness for C4: a single decoded block that is not a `CERTIFICATE`
triggers the delete outcome. -/
theorem C4_ca_pem_validation_witness :
    CaReconcile caEnvBadBlock "garden-abc" "shoot-ca"
      ⟨[("abc--u1", [65, 66])], [("garden-abc/shoot-ca", "abc--u1")]⟩ =
      (caDeleteMapping ⟨[("abc--u1", [65, 66])],
        [("garden-abc/shoot-ca", "abc--u1")]⟩ "garden-abc/shoot-ca",
        ⟨0, false⟩) := by
  rw [C4_ca_pem_validation caEnvBadBlock "garden-abc" "shoot-ca" _ _
    [65, 66] ⟨[(labelProjectName, "abc")]⟩ "abc" ⟨some "garden-abc"⟩
    "my-shoot" "u1" ⟨"u1", []⟩ [65, 66] rfl rfl (by decide) (by decide)
    (by decide) (by decide) rfl (by decide) rfl rfl (by decide) (by decide)
    rfl rfl rfl]
  have hblocks := pemBlocks_of_decode_some caEnvBadBlock [65, 66]
    ⟨"RSA PRIVATE KEY", [], [9]⟩ ⟨[], by simp⟩ rfl
  rw [pemBlocks_of_decode_none caEnvBadBlock [] rfl] at hblocks
  rw [hblocks]
  simp [validBlock]

/-! ## C9: the PEM walk constrains only decodable blocks -/

/-- Claim C9: the PEM validation constrains only successfully decodable
blocks — when the (non-empty) `data["ca.crt"]` yields no decodable block
at all, or when every decoded block is a valid CA certificate (regardless
of undecodable trailing bytes), the walk succeeds and the whole raw
payload is marshalled into `{"certs": ...}` and written verbatim. -/
theorem C9_pem_walk_accepts_undecodable (env : CaEnv)
    (reqNamespace reqName : String) (st : CaState) (configmap : ConfigMap)
    (data : List Nat) (namespaceObj : NamespaceObj) (projectName : String)
    (project : Project) (shootName shootUID : String) (shoot : Shoot)
    (payload : List Nat)
    (hcm : env.getConfigMap = .found configmap)
    (hdel : configmap.deletionTimestamp = none)
    (hdata : mapLookup configmap.data "ca.crt" = some data)
    (hdne : data ≠ [])
    (hl1 : mapLookupD configmap.labels "discovery.gardener.cloud/public" ""
      = "shoot-ca")
    (hl2 : mapLookupD configmap.labels "gardener.cloud/update-restriction"
      "" = "true")
    (hns : env.getNamespace reqNamespace = .found namespaceObj)
    (hpl : mapLookup namespaceObj.labels labelProjectName =
      some projectName)
    (hgp : env.getProject projectName = .found project)
    (hpns : project.specNamespace = some reqNamespace)
    (hsn : mapLookup configmap.labels labelShootName = some shootName)
    (hsu : mapLookup configmap.labels labelShootUID = some shootUID)
    (hgs : env.getShoot shootName reqNamespace = .found shoot)
    (huid : shoot.uid = shootUID)
    (hm : env.marshalCerts data = some payload)
    (hblocks : ∀ b ∈ pemBlocks env data, validBlock env b = true) :
    pemWalkOk env data = true ∧
    CaReconcile env reqNamespace reqName st =
      (caCreateMapping st (reqNamespace ++ "/" ++ reqName)
        (projectName ++ "--" ++ shootUID) payload,
        ⟨env.resyncPeriod, false⟩) := by
  have hall : (pemBlocks env data).all (validBlock env) = true :=
    List.all_eq_true.mpr hblocks
  have hwalk : pemWalkOk env data = true := by
    rw [pemWalkOk_eq_all_validBlock]; exact hall
  exact ⟨hwalk, caReconcile_success_eq env reqNamespace reqName st configmap
    data namespaceObj projectName project shootName shootUID shoot payload
    hcm hdel hdata hdne hl1 hl2 hns hpl hgp hpns hsn hsu hgs huid hwalk hm⟩

/-- Witness for C9: raw garbage bytes from which no PEM block decodes are
accepted and stored verbatim. -/
theorem C9_pem_walk_accepts_undecodable_witness :
    pemWalkOk (caEnvWithUID "u1") [65] = true ∧
    CaReconcile (caEnvWithUID "u1") "garden-abc" "shoot-ca" ⟨[], []⟩ =
      (caCreateMapping ⟨[], []⟩ "garden-abc/shoot-ca" "abc--u1" [65],
        ⟨5, false⟩) :=
  C9_pem_walk_accepts_undecodable (caEnvWithUID "u1") "garden-abc"
    "shoot-ca" ⟨[], []⟩ _ [65] ⟨[(labelProjectName, "abc")]⟩ "abc"
    ⟨some "garden-abc"⟩ "my-shoot" "u1" ⟨"u1", []⟩ [65]
    rfl rfl (by decide) (by decide) (by decide) (by decide) rfl (by decide)
    rfl rfl (by decide) (by decide) rfl rfl rfl
    (by rw [pemBlocks_of_decode_none _ _ rfl]; intro b hb; cases hb)

/-! ## C5: stale CA-store entries after a store-key change -/

/-- Claim C5 is refuted by the code: after a successful reconcile of
upstream key `garden-abc/shoot-ca` stored an entry under `abc--u1`, a
later successful reconcile of the same upstream key resolving to
`abc--u2` (the shoot-uid label and shoot UID changed) overwrites only the
mapping; the entry under `abc--u1` stays in the store, and a further
resync reconcile still leaves it there — `createMapping` never deletes
the previously mapped store key. -/
theorem C5_stale_ca_entry_persists :
    CaReconcile (caEnvWithUID "u1") "garden-abc" "shoot-ca" ⟨[], []⟩ =
      (⟨[("abc--u1", [65])], [("garden-abc/shoot-ca", "abc--u1")]⟩,
        ⟨5, false⟩) ∧
    CaReconcile (caEnvWithUID "u2") "garden-abc" "shoot-ca"
        ⟨[("abc--u1", [65])], [("garden-abc/shoot-ca", "abc--u1")]⟩ =
      (⟨[("abc--u2", [65]), ("abc--u1", [65])],
        [("garden-abc/shoot-ca", "abc--u2")]⟩, ⟨5, false⟩) ∧
    storeRead [("abc--u2", [65]), ("abc--u1", [65])] "abc--u1" =
      some [65] ∧
    CaReconcile (caEnvWithUID "u2") "garden-abc" "shoot-ca"
        ⟨[("abc--u2", [65]), ("abc--u1", [65])],
          [("garden-abc/shoot-ca", "abc--u2")]⟩ =
      (⟨[("abc--u2", [65]), ("abc--u1", [65])],
        [("garden-abc/shoot-ca", "abc--u2")]⟩, ⟨5, false⟩) := by
  have hw1 : pemWalkOk (caEnvWithUID "u1") [65] = true :=
    pemWalkOk_of_decode_none _ _ rfl
  have hw2 : pemWalkOk (caEnvWithUID "u2") [65] = true :=
    pemWalkOk_of_decode_none _ _ rfl
  refine ⟨?_, ?_, by decide, ?_⟩
  · rw [caReconcile_success_eq (caEnvWithUID "u1") "garden-abc" "shoot-ca"
      _ _ [65] ⟨[(labelProjectName, "abc")]⟩ "abc" ⟨some "garden-abc"⟩
      "my-shoot" "u1" ⟨"u1", []⟩ [65] rfl rfl (by decide) (by decide)
      (by decide) (by decide) rfl (by decide) rfl rfl (by decide)
      (by decide) rfl rfl hw1 rfl]
    decide
  · rw [caReconcile_success_eq (caEnvWithUID "u2") "garden-abc" "shoot-ca"
      _ _ [65] ⟨[(labelProjectName, "abc")]⟩ "abc" ⟨some "garden-abc"⟩
      "my-shoot" "u2" ⟨"u2", []⟩ [65] rfl rfl (by decide) (by decide)
      (by decide) (by decide) rfl (by decide) rfl rfl (by decide)
      (by decide) rfl rfl hw2 rfl]
    decide
  · rw [caReconcile_success_eq (caEnvWithUID "u2") "garden-abc" "shoot-ca"
      _ _ [65] ⟨[(labelProjectName, "abc")]⟩ "abc" ⟨some "garden-abc"⟩
      "my-shoot" "u2" ⟨"u2", []⟩ [65] rfl rfl (by decide) (by decide)
      (by decide) (by decide) rfl (by decide) rfl rfl (by decide)
      (by decide) rfl rfl hw2 rfl]
    decide

/-! ## C6: deep-copy semantics of the store -/

namespace OidHeap

theorem getBuf_setBuf_ne (h : Heap) (i j : Nat) (b : List Nat)
    (hne : i ≠ j) : getBuf (setBuf h i b) j = getBuf h j := by
  unfold getBuf setBuf
  rw [List.getD_eq_getD_get?, List.getD_eq_getD_get?, List.get?_eq_getElem?,
    List.get?_eq_getElem?, List.getElem?_set_ne hne]

theorem getBuf_append_lt (h l : Heap) (i : Nat) (hi : i < h.length) :
    getBuf (h ++ l) i = getBuf h i :=
  List.getD_append h l [] i hi

theorem getBuf_append_two_self (h : Heap) (a b : List Nat) :
    getBuf (h ++ [a, b]) h.length = a := by
  unfold getBuf
  rw [List.getD_append_right h [a, b] [] h.length (Nat.le_refl _)]
  simp

theorem getBuf_append_two_succ (h : Heap) (a b : List Nat) :
    getBuf (h ++ [a, b]) (h.length + 1) = b := by
  unfold getBuf
  rw [List.getD_append_right h [a, b] [] (h.length + 1)
    (Nat.le_succ_of_le (Nat.le_refl _))]
  simp

theorem length_setBuf (h : Heap) (i : Nat) (b : List Nat) :
    (setBuf h i b).length = h.length :=
  List.length_set h i b

/-- Reading twice from the same lookup result: the bytes are the
dereferenced stored buffers, whatever heap the store is read in. -/
theorem ReadBytes_of_lookup (h : Heap) (s : OMStore) (key : String)
    (d : DataRef) (hl : mapLookup s key = some d) :
    ReadBytes h s key = some (getBuf h d.config, getBuf h d.jwks) := by
  unfold ReadBytes Read copyData
  rw [hl]
  simp only []
  rw [getBuf_append_two_self, getBuf_append_two_succ]

theorem mapLookup_mapInsert_self {α : Type} (s : List (String × α))
    (k : String) (v : α) : mapLookup (mapInsert s k v) k = some v := by
  unfold mapLookup mapInsert
  simp [List.lookup]

theorem mem_of_mapLookup_eq_some {α : Type} (s : List (String × α))
    (k : String) (v : α) (h : mapLookup s k = some v) : (k, v) ∈ s := by
  unfold mapLookup at h
  induction s with
  | nil => cases h
  | cons p t ih =>
    obtain ⟨k2, v2⟩ := p
    by_cases hk : k = k2
    · subst hk
      simp [List.lookup] at h
      subst h
      exact List.mem_cons_self _ _
    · have hbeq : (k == k2) = false := beq_eq_false_iff_ne.mpr hk
      simp only [List.lookup, hbeq] at h
      exact List.mem_cons_of_mem _ (ih h)

end OidHeap

open OidHeap in
/-- Claim C6: `Read` returns a deep copy of the stored value — mutating
the returned buffers and re-reading yields the original stored bytes —
and `Write` deep-copies its argument on entry — mutating the buffers
passed to `Write` after the call does not change what a subsequent `Read`
returns. -/
theorem C6_store_deep_copy (h : OidHeap.Heap) (s : OidHeap.OMStore)
    (key : String) (hwf : OidHeap.WF h s) :
    (∀ (h1 : OidHeap.Heap) (r : OidHeap.DataRef),
      OidHeap.Read h s key = (h1, some r) →
      ∀ b1 b2 : List Nat,
        OidHeap.ReadBytes (setBuf (setBuf h1 r.config b1) r.jwks b2) s key =
          OidHeap.ReadBytes h s key) ∧
    (∀ d : OidHeap.DataRef, d.config < h.length → d.jwks < h.length →
      ∀ b1 b2 : List Nat,
        OidHeap.ReadBytes
          (setBuf (setBuf (OidHeap.Write h s key d).1 d.config b1)
            d.jwks b2)
          (OidHeap.Write h s key d).2 key =
          some (getBuf h d.config, getBuf h d.jwks)) := by
  constructor
  · intro h1 r hread b1 b2
    cases hl : mapLookup s key with
    | none =>
      unfold OidHeap.Read at hread
      rw [hl] at hread
      simp at hread
    | some d =>
      unfold OidHeap.Read OidHeap.copyData at hread
      rw [hl] at hread
      simp only [Prod.mk.injEq, Option.some.injEq] at hread
      obtain ⟨hh1, hr⟩ := hread
      subst hh1
      subst hr
      have hmem := mem_of_mapLookup_eq_some s key d hl
      have hdc : d.config < h.length := (hwf (key, d) hmem).1
      have hdj : d.jwks < h.length := (hwf (key, d) hmem).2
      rw [ReadBytes_of_lookup h s key d hl,
        ReadBytes_of_lookup _ s key d hl]
      have hc1 : getBuf (setBuf (setBuf
          (h ++ [getBuf h d.config, getBuf h d.jwks]) h.length b1)
          (h.length + 1) b2) d.config = getBuf h d.config := by
        rw [getBuf_setBuf_ne _ _ _ _ (by omega),
          getBuf_setBuf_ne _ _ _ _ (by omega),
          getBuf_append_lt _ _ _ hdc]
      have hc2 : getBuf (setBuf (setBuf
          (h ++ [getBuf h d.config, getBuf h d.jwks]) h.length b1)
          (h.length + 1) b2) d.jwks = getBuf h d.jwks := by
        rw [getBuf_setBuf_ne _ _ _ _ (by omega),
          getBuf_setBuf_ne _ _ _ _ (by omega),
          getBuf_append_lt _ _ _ hdj]
      rw [hc1, hc2]
  · intro d hdc hdj b1 b2
    have hl1 : mapLookup (OidHeap.Write h s key d).2 key =
        some (⟨h.length, h.length + 1⟩ : OidHeap.DataRef) := by
      unfold OidHeap.Write OidHeap.copyData
      exact mapLookup_mapInsert_self s key _
    rw [ReadBytes_of_lookup _ _ key _ hl1]
    have hwrite1 : (OidHeap.Write h s key d).1 =
        h ++ [getBuf h d.config, getBuf h d.jwks] := rfl
    rw [hwrite1]
    have hc1 : getBuf (setBuf (setBuf
        (h ++ [getBuf h d.config, getBuf h d.jwks]) d.config b1)
        d.jwks b2) h.length = getBuf h d.config := by
      rw [getBuf_setBuf_ne _ _ _ _ (by omega),
        getBuf_setBuf_ne _ _ _ _ (by omega),
        getBuf_append_two_self]
    have hc2 : getBuf (setBuf (setBuf
        (h ++ [getBuf h d.config, getBuf h d.jwks]) d.config b1)
        d.jwks b2) (h.length + 1) = getBuf h d.jwks := by
      rw [getBuf_setBuf_ne _ _ _ _ (by omega),
        getBuf_setBuf_ne _ _ _ _ (by omega),
        getBuf_append_two_succ]
    rw [hc1, hc2]

/-- Witness for C6: a two-buffer heap and a one-entry store. -/
theorem C6_store_deep_copy_witness :
    (∀ (h1 : OidHeap.Heap) (r : OidHeap.DataRef),
      OidHeap.Read [[1], [2]] [("k", ⟨0, 1⟩)] "k" = (h1, some r) →
      ∀ b1 b2 : List Nat,
        OidHeap.ReadBytes
          (OidHeap.setBuf (OidHeap.setBuf h1 r.config b1) r.jwks b2)
          [("k", ⟨0, 1⟩)] "k" =
          OidHeap.ReadBytes [[1], [2]] [("k", ⟨0, 1⟩)] "k") ∧
    (∀ d : OidHeap.DataRef, d.config < 2 → d.jwks < 2 →
      ∀ b1 b2 : List Nat,
        OidHeap.ReadBytes
          (OidHeap.setBuf (OidHeap.setBuf
            (OidHeap.Write [[1], [2]] [("k", ⟨0, 1⟩)] "k" d).1 d.config b1)
            d.jwks b2)
          (OidHeap.Write [[1], [2]] [("k", ⟨0, 1⟩)] "k" d).2 "k" =
          some (OidHeap.getBuf [[1], [2]] d.config,
            OidHeap.getBuf [[1], [2]] d.jwks)) :=
  C6_store_deep_copy [[1], [2]] [("k", ⟨0, 1⟩)] "k"
    (by unfold OidHeap.WF; decide)

end GDS
